import Mathlib

/-!
Verification of the request-dispatch pipeline of `src/index.js`
(HTTP entry point of the recruiting/ATS backend).

The file shallowly embeds the pipeline: environment checks, CORS
configuration, the memoized connection pool, controller factories,
the conditional schema-initialization middleware, the registration
order of the middleware chain, body-size enforcement, and the
`/test-db` handler.  JS object identity is modelled by `Nat`
identifiers drawn from a fresh-id counter in an explicit state.
-/

namespace ATSBack

/-- JS `String.prototype.startsWith`: prefix test on the character
sequence of the string. -/
def jsStartsWith (s p : String) : Bool := p.data.isPrefixOf s.data

/-! ### Environment model (index.js lines 10-19, 54, 66-75) -/

/-- JS truthiness of an environment variable: `undefined` and the empty
string are falsy, any other string is truthy. -/
def truthyEnv : Option String → Bool
  | none => false
  | some s => !(s == "")

/-- The required variables checked at startup (index.js line 11). -/
def requiredEnvVars : List String :=
  ["JWT_SECRET", "DB_HOST", "DB_USER", "DB_PASSWORD", "DB_DATABASE"]

/-- The process environment slice consumed by index.js. -/
structure Env where
  nodeEnv : Option String
  jwtSecret : Option String
  dbHost : Option String
  dbUser : Option String
  dbPassword : Option String
  dbDatabase : Option String
  allowedOriginsVar : Option String
deriving DecidableEq, Repr

/-- `process.env[name]` for the required variable names. -/
def lookupRequired (e : Env) (v : String) : Option String :=
  if v == "JWT_SECRET" then e.jwtSecret
  else if v == "DB_HOST" then e.dbHost
  else if v == "DB_USER" then e.dbUser
  else if v == "DB_PASSWORD" then e.dbPassword
  else if v == "DB_DATABASE" then e.dbDatabase
  else none

/-- `requiredEnvVars.filter(envVar => !process.env[envVar])` (line 12). -/
def missingEnvVars (e : Env) : List String :=
  requiredEnvVars.filter (fun v => !(truthyEnv (lookupRequired e v)))

/-- Observable outcome of the startup environment check. -/
structure StartupOutcome where
  loggedMissing : Option (List String)
  processAborted : Bool
  appExported : Bool
deriving DecidableEq, Repr

/-- The startup check (index.js lines 10-19): in production mode, when
required variables are missing their names are logged via console.error;
the check never calls process.exit and the module still constructs and
exports the app (line 232). -/
def startupEnvCheck (e : Env) : StartupOutcome :=
  if e.nodeEnv == some "production" then
    if (missingEnvVars e).length > 0 then
      { loggedMissing := some (missingEnvVars e)
        processAborted := false
        appExported := true }
    else
      { loggedMissing := none, processAborted := false, appExported := true }
  else
    { loggedMissing := none, processAborted := false, appExported := true }

/-! ### CORS configuration (index.js lines 59-84) -/

/-- The built-in allow-list (index.js lines 59-64). -/
def allowedOrigins : List String :=
  ["http://localhost:3000",
   "https://ats-orcin.vercel.app",
   "https://ats-software-frontend.vercel.app",
   "https://cms-organization.vercel.app"]

/-- `process.env.ALLOWED_ORIGINS ? ALLOWED_ORIGINS.split(",") : []`
(index.js lines 66-68); the empty string is falsy. -/
def additionalOrigins (v : Option String) : List String :=
  match v with
  | none => []
  | some s => if s == "" then [] else s.splitOn ","

/-- `allOrigins = [...allowedOrigins, ...additionalOrigins]` (line 70). -/
def allOrigins (v : Option String) : List String :=
  allowedOrigins ++ additionalOrigins v

/-- The `origin` option passed to the cors middleware. -/
inductive OriginPolicy where
  | allowList (origins : List String)
  | allowAll
deriving DecidableEq, Repr

/-- `origin: process.env.NODE_ENV === "production" ? allOrigins : true`
(index.js line 75). -/
def corsOrigin (nodeEnv : Option String) (allowedVar : Option String) : OriginPolicy :=
  if nodeEnv == some "production" then .allowList (allOrigins allowedVar)
  else .allowAll

/-- `methods: ["GET", "POST", "PUT", "DELETE", "OPTIONS"]` (line 76). -/
def corsMethods : List String :=
  ["GET", "POST", "PUT", "DELETE", "OPTIONS"]

/-- Whether a cross-origin request from `origin` is admitted under the
configured policy. -/
def originAllowed (nodeEnv : Option String) (allowedVar : Option String)
    (origin : String) : Bool :=
  match corsOrigin nodeEnv allowedVar with
  | .allowAll => true
  | .allowList l => l.contains origin

/-! ### Connection pool and controller factories (index.js lines 98-116)

JS heap objects are modelled by `Nat` identifiers allocated from the
fresh-id counter `nextId`: two objects are the same instance exactly
when their identifiers are equal. -/

/-- Module-level mutable state of index.js: the memoized `pool` variable
(line 98), an instrumentation counter of `createPool` invocations, and
the fresh-id allocator. -/
structure SrvState where
  pool : Option Nat
  createPoolCalls : Nat
  nextId : Nat
deriving DecidableEq, Repr

/-- State at module load: `let pool;` — no pool yet. -/
def initState : SrvState := { pool := none, createPoolCalls := 0, nextId := 0 }

/-- Modelled from the spec: `createPool` (from `./config/database`, not
under src/) constructs a new connection pool from environment-derived
configuration.  Each invocation allocates a fresh pool object; a
constructed pool is a JS object and hence truthy. -/
def createPool (s : SrvState) : Nat × SrvState :=
  (s.nextId,
   { s with createPoolCalls := s.createPoolCalls + 1, nextId := s.nextId + 1 })

/-- `getPool` (index.js lines 99-104): `if (!pool) { pool = createPool(); }
return pool;`.  The memoized pool object is truthy, so the guard is
equivalent to the `Option` match. -/
def getPool (s : SrvState) : Nat × SrvState :=
  match s.pool with
  | some p => (p, s)
  | none =>
    let r := createPool s
    (r.1, { r.2 with pool := some r.1 })

/-- Run `getPool()` `n` times in sequence, collecting the returned pool
objects. -/
def getPoolSeq : Nat → SrvState → List Nat × SrvState
  | 0, s => ([], s)
  | n + 1, s =>
    let r := getPool s
    let rest := getPoolSeq n r.2
    (r.1 :: rest.1, rest.2)

/-- A controller instance: its object identity and the pool it is bound
to. -/
structure Controller where
  ctrlId : Nat
  boundPool : Nat
deriving DecidableEq, Repr

/-- `new XController(getPool())`: allocates a fresh controller object
bound to the shared pool.  All eleven factories on index.js lines
106-116 have this shape. -/
def newControllerInstance (s : SrvState) : Controller × SrvState :=
  let r := getPool s
  (⟨r.2.nextId, r.1⟩, { r.2 with nextId := r.2.nextId + 1 })

/-- `getAuthController` (index.js line 106):
`() => new AuthController(getPool())`. -/
def getAuthController : SrvState → Controller × SrvState := newControllerInstance

/-- `getJobController` (index.js line 109):
`() => new JobController(getPool())`. -/
def getJobController : SrvState → Controller × SrvState := newControllerInstance

/-! ### Conditional schema-initialization middleware (index.js lines 118-156) -/

/-- The resources whose `initTables` the middleware may invoke. -/
inductive Resource where
  | office | team | auth
  | organizations | hiringManagers | jobs | jobSeekers
  | customFields | leads | tasks
deriving DecidableEq, Repr

/-- The baseline initializers run for every `/api/` request, in source
order (index.js lines 121-128): offices, teams, auth. -/
def baselineInits : List Resource := [.office, .team, .auth]

/-- The resources guarded by a path-specific conditional (index.js
lines 130-150), in source order. -/
def specificResources : List Resource :=
  [.organizations, .hiringManagers, .jobs, .jobSeekers,
   .customFields, .leads, .tasks]

/-- The path prefix tested for each path-specific resource (the
baseline resources carry no path condition; their entry is unused). -/
def resourceRoute : Resource → String
  | .organizations => "/api/organizations"
  | .hiringManagers => "/api/hiring-managers"
  | .jobs => "/api/jobs"
  | .jobSeekers => "/api/job-seekers"
  | .customFields => "/api/custom-fields"
  | .leads => "/api/leads"
  | .tasks => "/api/tasks"
  | .office => ""
  | .team => ""
  | .auth => ""

/-- The path-specific initializers selected for a request path, in the
order of the source's cascade of `if (req.path.startsWith(...))`
(index.js lines 130-150). -/
def specificInits (path : String) : List Resource :=
  (if jsStartsWith path "/api/organizations" then [.organizations] else [])
  ++ (if jsStartsWith path "/api/hiring-managers" then [.hiringManagers] else [])
  ++ (if jsStartsWith path "/api/jobs" then [.jobs] else [])
  ++ (if jsStartsWith path "/api/job-seekers" then [.jobSeekers] else [])
  ++ (if jsStartsWith path "/api/custom-fields" then [.customFields] else [])
  ++ (if jsStartsWith path "/api/leads" then [.leads] else [])
  ++ (if jsStartsWith path "/api/tasks" then [.tasks] else [])

/-- The full initializer sequence the middleware attempts for a request
path: nothing unless the path starts with "/api/" (line 119), otherwise
the baseline followed by the path-specific ones. -/
def initializersFor (path : String) : List Resource :=
  if jsStartsWith path "/api/" then baselineInits ++ specificInits path
  else []

/-- Sequential execution of the `await ...initTables()` calls inside the
`try` block: `ok r` tells whether resource `r`'s `initTables` resolves
(`true`) or rejects (`false`).  Execution stops at the first rejection,
as a thrown error aborts the rest of the `try` block.  Returns the
initializers actually run and whether an error was thrown. -/
def runInits (ok : Resource → Bool) : List Resource → List Resource × Bool
  | [] => ([], false)
  | r :: rs =>
    if ok r then
      let rest := runInits ok rs
      (r :: rest.1, rest.2)
    else
      ([r], true)

/-- Observable outcome of one invocation of the middleware. -/
structure MwOutcome where
  ran : List Resource
  loggedError : Bool
  calledNext : Bool
  sentErrorResponse : Bool
deriving DecidableEq, Repr

/-- The middleware (index.js lines 118-156): inside `try`, run the
selected initializers in order; `catch` logs `console.error` and falls
through; `next()` is called unconditionally afterwards and no response
is ever written by this middleware. -/
def schemaInitMiddleware (ok : Resource → Bool) (path : String) : MwOutcome :=
  let r := runInits ok (initializersFor path)
  { ran := r.1, loggedError := r.2, calledNext := true, sentErrorResponse := false }

/-- Process a sequence of requests through the middleware, accumulating
how many times each resource's `initTables` has been invoked in this
process. -/
def processRequests (ok : Resource → Bool) :
    List String → (Resource → Nat) → (Resource → Nat)
  | [], counts => counts
  | p :: ps, counts =>
    processRequests ok ps
      (fun r => counts r + (schemaInitMiddleware ok p).ran.count r)

/-! ### The middleware chain (index.js lines 56-224)

The app is the ordered list of registered stages; a request executes
them strictly in registration order under Express semantics: a regular
stage runs when no response has been sent and no error is pending, an
error stage (`errorHandler`) runs only when an error is pending, and a
stage that sends a response terminates the chain. -/

/-- The eleven router mounts, in registration order
(index.js lines 158-200). -/
inductive MountName where
  | authM | usersM | organizationsM | jobsM | jobSeekersM | hiringManagersM
  | customFieldsM | leadsM | tasksM | officesM | teamsM
deriving DecidableEq, Repr

/-- The mount path of each router (first argument of `app.use`). -/
def mountRoute : MountName → String
  | .authM => "/api/auth"
  | .usersM => "/api/users"
  | .organizationsM => "/api/organizations"
  | .jobsM => "/api/jobs"
  | .jobSeekersM => "/api/job-seekers"
  | .hiringManagersM => "/api/hiring-managers"
  | .customFieldsM => "/api/custom-fields"
  | .leadsM => "/api/leads"
  | .tasksM => "/api/tasks"
  | .officesM => "/api/offices"
  | .teamsM => "/api/teams"

/-- Express mount matching: the request path equals the mount path or
continues it at a path-segment boundary. -/
def mountMatches (m : MountName) (path : String) : Bool :=
  path == mountRoute m || jsStartsWith path (mountRoute m ++ "/")

/-- Which registered body parser a request body is handled by:
`bodyParser.json` or `bodyParser.urlencoded` (index.js lines 86-87);
the spec expects `Content-Type: application/json` on bodies. -/
inductive BodyKind where
  | jsonBody | urlencodedBody
deriving DecidableEq, Repr

/-- An inbound request, abstracted to the data the chain inspects. -/
structure Req where
  path : String
  bodyKind : BodyKind
  bodyBytes : Nat
deriving DecidableEq, Repr

/-- Both body parsers are configured with `limit: "1mb"`
(index.js lines 86-87): 1048576 bytes. -/
def bodyLimitBytes : Nat := 1048576

/-- A registered stage of the chain.  `sanitizeS m` is the
`sanitizeInputs` middleware of mount `m`, `routerS m` the router callback
(auth guard plus resource handlers) of mount `m`. -/
inductive Stage where
  | helmetS | compressionS | corsS
  | jsonParserS | urlencodedParserS
  | accessLogS | schemaInitS
  | sanitizeS (m : MountName)
  | routerS (m : MountName)
  | testDbS | rootS
  | notFoundS | errorHandlerS
deriving DecidableEq, Repr

/-- The registration sequence of index.js, lines 56 (`helmet`) through
224 (`errorHandler`). -/
def appStages : List Stage :=
  [.helmetS, .compressionS, .corsS, .jsonParserS, .urlencodedParserS,
   .accessLogS, .schemaInitS,
   .sanitizeS .authM, .routerS .authM,
   .sanitizeS .usersM, .routerS .usersM,
   .sanitizeS .organizationsM, .routerS .organizationsM,
   .sanitizeS .jobsM, .routerS .jobsM,
   .sanitizeS .jobSeekersM, .routerS .jobSeekersM,
   .sanitizeS .hiringManagersM, .routerS .hiringManagersM,
   .sanitizeS .customFieldsM, .routerS .customFieldsM,
   .sanitizeS .leadsM, .routerS .leadsM,
   .sanitizeS .tasksM, .routerS .tasksM,
   .sanitizeS .officesM, .routerS .officesM,
   .sanitizeS .teamsM, .routerS .teamsM,
   .testDbS, .rootS, .notFoundS, .errorHandlerS]

/-- Per-request execution state: whether an error is pending, whether a
response has been sent, and the stages that have run, in order. -/
structure ExecState where
  errored : Bool
  handled : Bool
  trace : List Stage
deriving DecidableEq, Repr

/-- One step of Express dispatch for stage `s`.  `notFoundS` and
`errorHandlerS` (from `./middleware/errorMiddleware`, not under src/)
are modelled from the spec: the Error Normalizer is a terminal pair in
which `notFound` responds to any request no route matched and
`errorHandler` responds to any pending error. -/
def stepStage (req : Req) (st : ExecState) (s : Stage) : ExecState :=
  match s with
  | .helmetS =>
    if st.handled || st.errored then st
    else { st with trace := st.trace ++ [Stage.helmetS] }
  | .compressionS =>
    if st.handled || st.errored then st
    else { st with trace := st.trace ++ [Stage.compressionS] }
  | .corsS =>
    if st.handled || st.errored then st
    else { st with trace := st.trace ++ [Stage.corsS] }
  | .jsonParserS =>
    if st.handled || st.errored then st
    else if req.bodyKind == .jsonBody &&
        decide (req.bodyBytes > bodyLimitBytes) then
      { st with errored := true, trace := st.trace ++ [Stage.jsonParserS] }
    else { st with trace := st.trace ++ [Stage.jsonParserS] }
  | .urlencodedParserS =>
    if st.handled || st.errored then st
    else if req.bodyKind == .urlencodedBody &&
        decide (req.bodyBytes > bodyLimitBytes) then
      { st with
        errored := true
        trace := st.trace ++ [Stage.urlencodedParserS] }
    else { st with trace := st.trace ++ [Stage.urlencodedParserS] }
  | .accessLogS =>
    if st.handled || st.errored then st
    else { st with trace := st.trace ++ [Stage.accessLogS] }
  | .schemaInitS =>
    if st.handled || st.errored then st
    else { st with trace := st.trace ++ [Stage.schemaInitS] }
  | .sanitizeS m =>
    if st.handled || st.errored then st
    else if mountMatches m req.path then
      { st with trace := st.trace ++ [Stage.sanitizeS m] }
    else st
  | .routerS m =>
    if st.handled || st.errored then st
    else if mountMatches m req.path then
      { st with handled := true, trace := st.trace ++ [Stage.routerS m] }
    else st
  | .testDbS =>
    if st.handled || st.errored then st
    else if req.path == "/test-db" then
      { st with handled := true, trace := st.trace ++ [Stage.testDbS] }
    else st
  | .rootS =>
    if st.handled || st.errored then st
    else if req.path == "/" then
      { st with handled := true, trace := st.trace ++ [Stage.rootS] }
    else st
  | .notFoundS =>
    if st.handled || st.errored then st
    else { st with handled := true, trace := st.trace ++ [Stage.notFoundS] }
  | .errorHandlerS =>
    if st.handled then st
    else if st.errored then
      { st with handled := true, trace := st.trace ++ [Stage.errorHandlerS] }
    else st

/-- Execute the whole registered chain on a request. -/
def execPipeline (req : Req) : ExecState :=
  appStages.foldl (stepStage req) { errored := false, handled := false, trace := [] }

/-- The stages that actually ran for a request, in execution order. -/
def execTrace (req : Req) : List Stage :=
  (execPipeline req).trace

/-! ### The GET /test-db handler (index.js lines 202-216) -/

/-- The JSON body the handler sends. -/
inductive TestDbBody where
  | okBody (time : String)
  | errBody (msg : String)
deriving DecidableEq, Repr

/-- Observable outcome of the handler, with connection accounting. -/
structure TestDbResult where
  status : Nat
  body : TestDbBody
  borrowed : Nat
  released : Nat
deriving DecidableEq, Repr

/-- The handler: `pool.connect()` may reject before any connection is
borrowed; once a client is borrowed, `client.release()` runs in
`finally` on both the success and the failure path of the query; the
outer `catch` answers 500 `{success:false, error:"Database error"}`,
the success path 200 `{success:true, time:...}`. -/
def testDbHandler (connect : Except String Nat)
    (query : Nat → Except String String) : TestDbResult :=
  match connect with
  | .error _ =>
    { status := 500, body := .errBody "Database error", borrowed := 0, released := 0 }
  | .ok client =>
    match query client with
    | .ok t =>
      { status := 200, body := .okBody t, borrowed := 1, released := 1 }
    | .error _ =>
      { status := 500, body := .errBody "Database error", borrowed := 1, released := 1 }

/-! ## Helper lemmas -/

/-- After any call, the memoized variable holds exactly the returned
pool. -/
theorem getPool_pool_eq (s : SrvState) :
    ((getPool s).2).pool = some (getPool s).1 := by
  cases h : s.pool <;> simp [getPool, createPool, h]

/-- When the pool is already memoized, `getPool` returns it and leaves
the state untouched. -/
theorem getPool_of_some {s : SrvState} {p : Nat} (h : s.pool = some p) :
    getPool s = (p, s) := by
  simp [getPool, h]

/-- From a state whose pool is memoized, a run of `getPool` calls
returns the cached pool every time and never constructs. -/
theorem getPoolSeq_of_some {s : SrvState} {p : Nat} (h : s.pool = some p) :
    ∀ n, getPoolSeq n s = (List.replicate n p, s) := by
  intro n
  induction n with
  | zero => simp [getPoolSeq]
  | succ n ih => simp [getPoolSeq, getPool_of_some h, ih, List.replicate_succ]

/-- The middleware throws exactly when some selected initializer
rejects (execution stops at the first rejection, so the flag is the
boolean "any rejects"). -/
theorem runInits_snd (ok : Resource → Bool) (l : List Resource) :
    (runInits ok l).2 = l.any (fun r => !(ok r)) := by
  induction l with
  | nil => rfl
  | cons r rs ih =>
    by_cases h : ok r = true
    · simp [runInits, h, ih]
    · have hf : ok r = false := by
        cases hh : ok r
        · rfl
        · exact absurd hh h
      simp [runInits, hf]

/-- When every initializer resolves, the whole selected list runs and
no error is thrown. -/
theorem runInits_all_ok (l : List Resource) :
    runInits (fun _ => true) l = (l, false) := by
  induction l with
  | nil => rfl
  | cons r rs ih => simp [runInits, ih]

/-- Membership in a conditional singleton block of the cascade. -/
theorem mem_ite_singleton {c : Prop} [Decidable c] {a b : Resource} :
    (a ∈ (if c then [b] else [])) ↔ (c ∧ a = b) := by
  split <;> simp_all

/-- The initializer sequence selected for a path never repeats a
resource. -/
theorem initializersFor_nodup (path : String) :
    (initializersFor path).Nodup := by
  unfold initializersFor specificInits baselineInits
  split
  · split_ifs <;> decide
  · decide

/-- Occurrence count of a resource in the selected sequence. -/
theorem count_initializersFor (path : String) (r : Resource) :
    (initializersFor path).count r =
      if r ∈ initializersFor path then 1 else 0 := by
  by_cases h : r ∈ initializersFor path
  · simp [h, List.count_eq_one_of_mem (initializersFor_nodup path) h]
  · simp [h, List.count_eq_zero_of_not_mem h]

/-- Request processing with all initializers succeeding: each request
adds one run for every resource its path selects — the middleware keeps
no memo of earlier successes. -/
theorem processRequests_allOk (paths : List String)
    (counts : Resource → Nat) (r : Resource) :
    processRequests (fun _ => true) paths counts r =
      counts r +
        (paths.filter (fun p => decide (r ∈ initializersFor p))).length := by
  induction paths generalizing counts with
  | nil => simp [processRequests]
  | cons p ps ih =>
    have hran : (schemaInitMiddleware (fun _ => true) p).ran =
        initializersFor p := by
      simp [schemaInitMiddleware, runInits_all_ok]
    by_cases hm : r ∈ initializersFor p
    · simp [processRequests, ih, hran, count_initializersFor, hm,
        List.filter_cons]
      omega
    · simp [processRequests, ih, hran, count_initializersFor, hm,
        List.filter_cons]

/-- One dispatch step appends the stage to the trace or leaves the
trace unchanged. -/
theorem stepStage_trace (req : Req) (st : ExecState) (s : Stage) :
    (stepStage req st s).trace = st.trace ∨
      (stepStage req st s).trace = st.trace ++ [s] := by
  cases s <;> simp only [stepStage] <;> split_ifs <;> simp

/-- Folding the dispatch step appends, in order, a selection of the
remaining registered stages. -/
theorem foldl_stepStage_trace (req : Req) (stages : List Stage) :
    ∀ st : ExecState, ∃ t,
      (stages.foldl (stepStage req) st).trace = st.trace ++ t ∧
        t.Sublist stages := by
  induction stages with
  | nil => exact fun st => ⟨[], by simp, List.nil_sublist _⟩
  | cons s rest ih =>
    intro st
    obtain ⟨t, ht, hsub⟩ := ih (stepStage req st s)
    rcases stepStage_trace req st s with h | h
    · exact ⟨t, by rw [List.foldl_cons, ht, h], hsub.cons s⟩
    · refine ⟨s :: t, ?_, hsub.cons₂ s⟩
      rw [List.foldl_cons, ht, h, List.append_assoc]
      rfl

/-! ## Claim theorems -/

/-- C2: `getPool()` constructs the underlying pool at most once per
process: starting from module-load state, a sequence of `n` calls
invokes `createPool` exactly `min n 1` times, and every call returns
the identical cached pool object (the one allocated by the first
call). -/
theorem getPool_constructs_at_most_once (n : Nat) :
    ((getPoolSeq n initState).2.createPoolCalls = min n 1) ∧
    (getPoolSeq n initState).1 = List.replicate n (getPool initState).1 := by
  cases n with
  | zero => simp [getPoolSeq, initState]
  | succ n =>
    have h1 : getPool initState =
        (0, { pool := some 0, createPoolCalls := 1, nextId := 1 }) := rfl
    have h2 : getPoolSeq (n + 1) initState =
        ((getPool initState).1 :: (getPoolSeq n (getPool initState).2).1,
         (getPoolSeq n (getPool initState).2).2) := rfl
    rw [h2, h1]
    have h3 := getPoolSeq_of_some
      (s := { pool := some 0, createPoolCalls := 1, nextId := 1 })
      (p := 0) rfl n
    simp [h3, List.replicate_succ]

/-- C4 counterexample: two dispatches to the same router do NOT use the
same controller instance.  From module-load state, the first and second
invocation of the auth mount's callback each run
`new AuthController(getPool())` and obtain distinct controller
objects. -/
theorem controller_reuse_counterexample :
    (getAuthController initState).1 ≠
      (getAuthController (getAuthController initState).2).1 := by
  decide

/-- C4 amended: each dispatch constructs a fresh controller instance
(the second dispatch's controller is a strictly newer object, hence a
different instance), but all instances are bound to the identical
shared pool, and the pool itself is constructed at most once across the
two dispatches. -/
theorem controller_fresh_per_dispatch_shared_pool (s : SrvState) :
    ((getAuthController (getAuthController s).2).1.ctrlId =
        (getAuthController s).1.ctrlId + 1) ∧
    ((getAuthController (getAuthController s).2).1 ≠ (getAuthController s).1) ∧
    ((getAuthController (getAuthController s).2).1.boundPool =
        (getAuthController s).1.boundPool) ∧
    ((getAuthController (getAuthController s).2).2.createPoolCalls ≤
        s.createPoolCalls + 1) := by
  cases h : s.pool with
  | some p =>
    simp [getAuthController, newControllerInstance, getPool, createPool, h,
      Controller.mk.injEq]
  | none =>
    simp [getAuthController, newControllerInstance, getPool, createPool, h,
      Controller.mk.injEq]

/-- C10: the startup environment check never aborts the process and the
app is always constructed and exported; in production mode with
required variables missing, the missing names are logged. -/
theorem envCheck_logs_and_continues (e : Env) :
    (startupEnvCheck e).processAborted = false ∧
    (startupEnvCheck e).appExported = true ∧
    (e.nodeEnv = some "production" → (missingEnvVars e).length > 0 →
      (startupEnvCheck e).loggedMissing = some (missingEnvVars e)) := by
  refine ⟨?_, ?_, ?_⟩
  · unfold startupEnvCheck; split
    · split <;> rfl
    · rfl
  · unfold startupEnvCheck; split
    · split <;> rfl
    · rfl
  · intro hprod hmiss
    unfold startupEnvCheck
    simp [hprod, hmiss, Nat.pos_iff_ne_zero]

/-- C10 witness: production environment missing every database
variable — the check logs all five names, does not abort, and the app
is exported. -/
theorem envCheck_logs_and_continues_witness :
    (startupEnvCheck
        { nodeEnv := some "production", jwtSecret := some "s"
          dbHost := none, dbUser := none, dbPassword := none
          dbDatabase := some "", allowedOriginsVar := none }).processAborted
        = false ∧
    (startupEnvCheck
        { nodeEnv := some "production", jwtSecret := some "s"
          dbHost := none, dbUser := none, dbPassword := none
          dbDatabase := some "", allowedOriginsVar := none }).appExported
        = true ∧
    (startupEnvCheck
        { nodeEnv := some "production", jwtSecret := some "s"
          dbHost := none, dbUser := none, dbPassword := none
          dbDatabase := some "", allowedOriginsVar := none }).loggedMissing
        = some ["DB_HOST", "DB_USER", "DB_PASSWORD", "DB_DATABASE"] := by
  have h := envCheck_logs_and_continues
    { nodeEnv := some "production", jwtSecret := some "s"
      dbHost := none, dbUser := none, dbPassword := none
      dbDatabase := some "", allowedOriginsVar := none }
  exact ⟨h.1, h.2.1, by rw [h.2.2 rfl (by decide)]; decide⟩

/-- C7: in production mode an origin is admitted exactly when it is in
the built-in allow-list extended by the `ALLOWED_ORIGINS` entries; in
any other mode every origin is admitted; in both modes the permitted
methods are exactly GET, POST, PUT, DELETE, OPTIONS. -/
theorem cors_policy (nodeEnv allowedVar : Option String) (origin : String) :
    (nodeEnv = some "production" →
      (originAllowed nodeEnv allowedVar origin = true ↔
        origin ∈ allowedOrigins ++ additionalOrigins allowedVar)) ∧
    (nodeEnv ≠ some "production" →
      originAllowed nodeEnv allowedVar origin = true) ∧
    corsMethods = ["GET", "POST", "PUT", "DELETE", "OPTIONS"] := by
  refine ⟨?_, ?_, rfl⟩
  · intro h
    simp [originAllowed, corsOrigin, h, allOrigins]
  · intro h
    have hb : (nodeEnv == some "production") = false := by
      simpa [beq_iff_eq] using h
    simp [originAllowed, corsOrigin, hb]

/-- C7 witness: with `ALLOWED_ORIGINS` unset, in production a built-in
origin is admitted and a foreign one is not, while outside production
the foreign origin is admitted; the method list is fixed. -/
theorem cors_policy_witness :
    (originAllowed (some "production") none "http://localhost:3000" = true) ∧
    (originAllowed (some "production") none "https://evil.example" = false) ∧
    (originAllowed (some "development") none "https://evil.example" = true) ∧
    corsMethods = ["GET", "POST", "PUT", "DELETE", "OPTIONS"] := by
  refine ⟨?_, ?_, ?_, (cors_policy none none "").2.2⟩
  · exact ((cors_policy (some "production") none
      "http://localhost:3000").1 rfl).mpr (by decide)
  · have h := (cors_policy (some "production") none "https://evil.example").1 rfl
    cases hb : originAllowed (some "production") none "https://evil.example" with
    | false => rfl
    | true => exact absurd (h.mp hb) (by decide)
  · exact (cors_policy (some "development") none
      "https://evil.example").2.1 (by decide)

/-- C8: the `/test-db` handler releases every borrowed connection on
every exit path, answers 200 `{success:true, time:t}` when the query
succeeds, and answers 500 `{success:false, error:"Database error"}`
when connecting or querying fails. -/
theorem testDb_releases_and_responds (connect : Except String Nat)
    (query : Nat → Except String String) :
    ((testDbHandler connect query).released =
        (testDbHandler connect query).borrowed) ∧
    (∀ cl t, connect = .ok cl → query cl = .ok t →
      testDbHandler connect query =
        { status := 200, body := .okBody t, borrowed := 1, released := 1 }) ∧
    (∀ e, connect = .error e →
      testDbHandler connect query =
        { status := 500, body := .errBody "Database error"
          borrowed := 0, released := 0 }) ∧
    (∀ cl e, connect = .ok cl → query cl = .error e →
      testDbHandler connect query =
        { status := 500, body := .errBody "Database error"
          borrowed := 1, released := 1 }) := by
  refine ⟨?_, ?_, ?_, ?_⟩
  · cases connect with
    | error e => rfl
    | ok cl => cases h : query cl <;> simp [testDbHandler, h]
  · intro cl t hc hq; subst hc; simp [testDbHandler, hq]
  · intro e hc; subst hc; rfl
  · intro cl e hc hq; subst hc; simp [testDbHandler, hq]

/-- C8 witness: a concrete succeeding run and a concrete failing run of
the handler, each balancing borrow and release. -/
theorem testDb_releases_and_responds_witness :
    (testDbHandler (.ok 7) (fun _ => .ok "2026-10-11") =
      { status := 200, body := .okBody "2026-10-11"
        borrowed := 1, released := 1 }) ∧
    (testDbHandler (.ok 7) (fun _ => .error "boom") =
      { status := 500, body := .errBody "Database error"
        borrowed := 1, released := 1 }) ∧
    (testDbHandler (.error "down") (fun _ => .ok "t") =
      { status := 500, body := .errBody "Database error"
        borrowed := 0, released := 0 }) := by
  refine ⟨?_, ?_, ?_⟩
  · exact (testDb_releases_and_responds (.ok 7)
      (fun _ => .ok "2026-10-11")).2.1 7 "2026-10-11" rfl rfl
  · exact (testDb_releases_and_responds (.ok 7)
      (fun _ => .error "boom")).2.2.2 7 "boom" rfl rfl
  · exact (testDb_releases_and_responds (.error "down")
      (fun _ => .ok "t")).2.2.1 "down" rfl

/-- C1: for a `/api/` request, if any selected schema initializer
rejects, the middleware logs the error, still calls `next()` so the
request proceeds toward the matched handler, and never writes an error
response itself. -/
theorem initFailure_logged_and_swallowed (ok : Resource → Bool) (path : String)
    (_hapi : jsStartsWith path "/api/" = true)
    (hfail : ∃ r ∈ initializersFor path, ok r = false) :
    (schemaInitMiddleware ok path).loggedError = true ∧
    (schemaInitMiddleware ok path).calledNext = true ∧
    (schemaInitMiddleware ok path).sentErrorResponse = false := by
  refine ⟨?_, rfl, rfl⟩
  obtain ⟨r, hr, hko⟩ := hfail
  simp [schemaInitMiddleware, runInits_snd, List.any_eq_true]
  exact ⟨r, hr, hko⟩

/-- C1 witness: on `/api/jobs` with the auth initializer rejecting, the
failure is logged, `next()` is still called, and no error response is
sent. -/
theorem initFailure_logged_and_swallowed_witness :
    (schemaInitMiddleware (fun r => !(r == Resource.auth))
        "/api/jobs").loggedError = true ∧
    (schemaInitMiddleware (fun r => !(r == Resource.auth))
        "/api/jobs").calledNext = true ∧
    (schemaInitMiddleware (fun r => !(r == Resource.auth))
        "/api/jobs").sentErrorResponse = false :=
  initFailure_logged_and_swallowed (fun r => !(r == Resource.auth))
    "/api/jobs" (by decide) ⟨Resource.auth, by decide, by decide⟩

/-- C3 counterexample: with every initializer succeeding, two
consecutive `/api/jobs` requests invoke the offices initializer twice —
it is re-invoked in full on the second request even though the first
run succeeded, so there is no per-process "confirmed initialized"
state. -/
theorem schemaInit_no_memo_counterexample :
    ¬ (processRequests (fun _ => true) ["/api/jobs", "/api/jobs"]
        (fun _ => 0) Resource.office ≤ 1) := by
  decide

/-- C3 amended: the middleware keeps no confirmation flag; for every
resource, its initializer is invoked once per request whose path
selects it — on every such request, not only before the first success —
and idempotence is delegated to `initTables` itself. -/
theorem schemaInit_runs_on_every_matching_request
    (paths : List String) (r : Resource) :
    processRequests (fun _ => true) paths (fun _ => 0) r =
      (paths.filter (fun p => decide (r ∈ initializersFor p))).length := by
  simpa using processRequests_allOk paths (fun _ => 0) r

/-- C5: a request outside `/api/` selects no initializer; a `/api/`
request always selects the fixed baseline (offices, teams, auth)
followed by the path-specific ones, the middleware runs exactly that
sequence when all initializers resolve and then lets the request
proceed, and a specific resource's initializer is selected exactly when
the path starts with that resource's prefix. -/
theorem initializers_selected_by_path (path : String) :
    (jsStartsWith path "/api/" = false → initializersFor path = []) ∧
    (jsStartsWith path "/api/" = true →
      initializersFor path = baselineInits ++ specificInits path ∧
      (schemaInitMiddleware (fun _ => true) path).ran = initializersFor path ∧
      (schemaInitMiddleware (fun _ => true) path).calledNext = true ∧
      (∀ r ∈ specificResources,
        (r ∈ initializersFor path ↔
          jsStartsWith path (resourceRoute r) = true))) := by
  constructor
  · intro h
    simp [initializersFor, h]
  · intro h
    refine ⟨by simp [initializersFor, h], ?_, rfl, ?_⟩
    · simp [schemaInitMiddleware, runInits_all_ok]
    · intro r hr
      fin_cases hr <;>
        simp [initializersFor, h, specificInits, baselineInits,
          resourceRoute, mem_ite_singleton]

/-- C5 witness: `/static/logo.png` selects nothing; `/api/leads/5`
selects the baseline plus the leads initializer, and the selection of
the leads initializer coincides with the path prefix test. -/
theorem initializers_selected_by_path_witness :
    (initializersFor "/static/logo.png" = []) ∧
    (initializersFor "/api/leads/5" =
      baselineInits ++ specificInits "/api/leads/5") ∧
    (Resource.leads ∈ initializersFor "/api/leads/5" ↔
      jsStartsWith "/api/leads/5" (resourceRoute Resource.leads) = true) :=
  ⟨(initializers_selected_by_path "/static/logo.png").1 (by decide),
   ((initializers_selected_by_path "/api/leads/5").2 (by decide)).1,
   ((initializers_selected_by_path "/api/leads/5").2 (by decide)).2.2.2
     Resource.leads (by decide)⟩

/-- C6: for every request the stages that run form a subsequence of the
registration sequence (strict registration order), and the registration
sequence places security/compression before CORS, CORS before body
parsing, body parsing before access logging, access logging before the
conditional schema initialization, that before every mount's input
sanitizer, each sanitizer before its router (auth guard and handlers),
and the error-normalizer pair last. -/
theorem middleware_chain_order (req : Req) :
    (execTrace req).Sublist appStages ∧
    (appStages.indexOf Stage.helmetS < appStages.indexOf Stage.corsS ∧
     appStages.indexOf Stage.compressionS < appStages.indexOf Stage.corsS ∧
     appStages.indexOf Stage.corsS < appStages.indexOf Stage.jsonParserS ∧
     appStages.indexOf Stage.jsonParserS <
       appStages.indexOf Stage.accessLogS ∧
     appStages.indexOf Stage.urlencodedParserS <
       appStages.indexOf Stage.accessLogS ∧
     appStages.indexOf Stage.accessLogS <
       appStages.indexOf Stage.schemaInitS ∧
     (∀ m : MountName,
       appStages.indexOf Stage.schemaInitS <
         appStages.indexOf (Stage.sanitizeS m) ∧
       appStages.indexOf (Stage.sanitizeS m) <
         appStages.indexOf (Stage.routerS m) ∧
       appStages.indexOf (Stage.routerS m) <
         appStages.indexOf Stage.notFoundS) ∧
     appStages.indexOf Stage.notFoundS <
       appStages.indexOf Stage.errorHandlerS) := by
  constructor
  · obtain ⟨t, ht, hsub⟩ := foldl_stepStage_trace req appStages
      { errored := false, handled := false, trace := [] }
    have : execTrace req = t := by simpa [execTrace, execPipeline] using ht
    rw [this]
    exact hsub
  · refine ⟨by decide, by decide, by decide, by decide, by decide, by decide,
      ?_, by decide⟩
    intro m
    cases m <;> exact ⟨by decide, by decide, by decide⟩

/-- C9: a request whose body exceeds the 1mb limit is rejected at its
body parser: the schema-initialization middleware, every mount's input
sanitizer, and every router never run, and the chain jumps to the error
handler. -/
theorem oversized_body_rejected (req : Req)
    (h : req.bodyBytes > bodyLimitBytes) :
    Stage.schemaInitS ∉ execTrace req ∧
    (∀ m : MountName,
      Stage.sanitizeS m ∉ execTrace req ∧
      Stage.routerS m ∉ execTrace req) ∧
    Stage.errorHandlerS ∈ execTrace req := by
  have hd : decide (req.bodyBytes > bodyLimitBytes) = true := decide_eq_true h
  cases hk : req.bodyKind with
  | jsonBody =>
    have hE : execTrace req =
        [.helmetS, .compressionS, .corsS, .jsonParserS, .errorHandlerS] := by
      simp [execTrace, execPipeline, appStages, stepStage, hk, hd]
    simp only [hE]
    refine ⟨by decide, ?_, by decide⟩
    intro m
    cases m <;> exact ⟨by decide, by decide⟩
  | urlencodedBody =>
    have hE : execTrace req =
        [.helmetS, .compressionS, .corsS, .jsonParserS, .urlencodedParserS,
         .errorHandlerS] := by
      simp [execTrace, execPipeline, appStages, stepStage, hk, hd]
    simp only [hE]
    refine ⟨by decide, ?_, by decide⟩
    intro m
    cases m <;> exact ⟨by decide, by decide⟩

/-- C9 witness: a 2000000-byte JSON body aimed at `/api/jobs` never
reaches the schema-initialization middleware, the jobs sanitizer, or
the jobs router, and lands in the error handler. -/
theorem oversized_body_rejected_witness :
    Stage.schemaInitS ∉
      execTrace { path := "/api/jobs", bodyKind := .jsonBody
                  bodyBytes := 2000000 } ∧
    Stage.sanitizeS .jobsM ∉
      execTrace { path := "/api/jobs", bodyKind := .jsonBody
                  bodyBytes := 2000000 } ∧
    Stage.routerS .jobsM ∉
      execTrace { path := "/api/jobs", bodyKind := .jsonBody
                  bodyBytes := 2000000 } ∧
    Stage.errorHandlerS ∈
      execTrace { path := "/api/jobs", bodyKind := .jsonBody
                  bodyBytes := 2000000 } := by
  have h := oversized_body_rejected
    { path := "/api/jobs", bodyKind := .jsonBody, bodyBytes := 2000000 }
    (by decide)
  exact ⟨h.1, (h.2.1 .jobsM).1, (h.2.1 .jobsM).2, h.2.2⟩

end ATSBack
